import Mathlib

/-!
# CleO - Session & Attendance Lifecycle: shallow embedding

This file embeds the Session & Attendance Lifecycle core of the CleO
classroom-attendance repository in Lean 4 and proves/refutes the frozen
claims about it.

Conventions of the embedding:

* The Firestore document store is modelled as association lists keyed by
  document id (`sessions`, `classes`), respectively by the
  `(sessionId, studentId)` pair for per-session subcollections
  (`attendance`, `verificationRequests`).  `set` is `putAssoc`
  (replace-or-append), `update` is `updAssoc` (replace in place),
  `delete` is `delAssoc`.
* The two enrollment collections used by the source
  (`userClasses/{studentId}/classes/{classId}` and
  `classes/{classId}/students/{studentId}`) are mirror images of one
  relation; both are modelled by the single relation `DB.enrollment`
  (a list of `(classId, studentId)` pairs).
* Timestamps (`serverTimestamp()`, `Timestamp.now()`, `new Date()`) are a
  `now : Nat` parameter in milliseconds; `toDate().toISOString()` is
  rendered as `toString now`.
* Free-form JavaScript objects (the `additional` bags, `responseData`)
  are modelled by the JSON-like type `JVal` and shallow-merged key lists.
* The floating-point haversine `calculateDistance` (built from
  `Math.sin`/`Math.cos`/`Math.atan2`) is not exactly representable over
  computable numbers; every operation that calls it is parameterised by
  an arbitrary distance function `calcDistance : GeoPoint -> GeoPoint -> Rat`
  and the geofence *comparison* logic is verified for all such functions.
* JavaScript errors thrown and caught into `{success:false, error}` are
  `Except String`; the `String` carries the source message.  Operations
  return the result together with the (possibly updated) store.
* Browser-environment fields with no logic attached (`deviceInfo`) are
  not modelled.
-/

namespace CleO

/-- A latitude/longitude pair (Firestore `GeoPoint`). -/
structure GeoPoint where
  latitude : ℚ
  longitude : ℚ
deriving DecidableEq

/-- JSON-like values for the free-form `additional` bags. -/
inductive JVal where
  | nul : JVal
  | str : String → JVal
  | num : ℚ → JVal
  | boo : Bool → JVal
  | obj : List (String × JVal) → JVal

/-- A free-form key/value bag (a JavaScript object). -/
abbrev Bag := List (String × JVal)

/-- Key lookup in an association list (a Firestore document `get`). -/
def lookupA {κ α : Type} [DecidableEq κ] : List (κ × α) → κ → Option α
  | [], _ => none
  | p :: t, k => if p.1 = k then some p.2 else lookupA t k

/-- Replace the value at key `k` if present (Firestore `update` on an
existing document; JS property assignment when the key exists). -/
def updAssoc {κ α : Type} [DecidableEq κ] (l : List (κ × α)) (k : κ) (v : α) :
    List (κ × α) :=
  l.map fun p => if p.1 = k then (k, v) else p

/-- Replace-or-append at key `k` (Firestore `set`; JS property assignment). -/
def putAssoc {κ α : Type} [DecidableEq κ] (l : List (κ × α)) (k : κ) (v : α) :
    List (κ × α) :=
  if (lookupA l k).isSome then updAssoc l k v else l ++ [(k, v)]

/-- Remove the entry at key `k` (Firestore `delete`). -/
def delAssoc {κ α : Type} [DecidableEq κ] (l : List (κ × α)) (k : κ) :
    List (κ × α) :=
  l.filter fun p => ¬ p.1 = k

/-- JavaScript object spread `{...a, ...b}`: keys of `a` first with values
overridden by `b` where present, then the keys of `b` not in `a`. -/
def mergeBag (a b : Bag) : Bag :=
  (a.map fun p =>
    match lookupA b p.1 with
    | some v => (p.1, v)
    | none => p) ++ b.filter fun q => (lookupA a q.1).isNone

/-- A session document (`sessions/{sessionId}`). -/
structure Session where
  sessionId : String := ""
  classId : String
  teacherId : String
  status : String
  startTime : Option Nat := none
  endTime : Option Nat := none
  location : GeoPoint
  radius : ℚ
  additional : Bag := []
  createdAt : Option Nat := none
  lastUpdated : Option Nat := none

/-- An attendance record document (`sessions/{sessionId}/attendance/{studentId}`).
Absent optional fields of the JavaScript document are `none`/`false`/`[]`. -/
structure AttendanceRecord where
  studentId : String := ""
  classId : String := ""
  checkInTime : Option Nat := none
  checkInLocation : Option GeoPoint := none
  checkOutTime : Option Nat := none
  status : String
  distance : Option ℚ := none
  isGpsVerified : Bool := false
  manuallyUpdated : Bool := false
  manuallyUpdatedBy : Option String := none
  manuallyCreated : Bool := false
  manuallyCreatedBy : Option String := none
  verificationResponseTime : Option Nat := none
  additional : Bag := []
  lastUpdated : Option Nat := none

/-- A verification request document
(`sessions/{sessionId}/verificationRequests/{studentId}`). -/
structure VerificationRequest where
  status : String
  requestTime : Option Nat := none
  responseTime : Option Nat := none
  responseLocation : Option GeoPoint := none
  responseAdditional : Bag := []
  lastUpdated : Option Nat := none

/-- The subset of a class document (`classes/{classId}`) that
`createAttendanceSession` reads.  The source probes many alternative
teacher-id keys on the raw document; each probe is one optional field. -/
structure ClassDoc where
  teacherId : Option String := none
  teacherUid : Option String := none
  teacherIdSnake : Option String := none
  teacherUidSnake : Option String := none
  teacherObjId : Option String := none
  teacherObjUid : Option String := none
  additionalTeacherId : Option String := none
  additionalTeacherUid : Option String := none
  name : Option String := none

/-- The document store. -/
structure DB where
  sessions : List (String × Session) := []
  classes : List (String × ClassDoc) := []
  attendance : List ((String × String) × AttendanceRecord) := []
  enrollment : List (String × String) := []
  verificationRequests : List ((String × String) × VerificationRequest) := []

/-- Enrollment lookup: both `userClasses/{studentId}/classes/{classId}` and
`classes/{classId}/students/{studentId}` mirror this relation. -/
def DB.isEnrolled (db : DB) (classId studentId : String) : Bool :=
  db.enrollment.contains (classId, studentId)

/-- Result payload of `validateLocationForSession`. -/
structure LocationValidation where
  isWithinRadius : Bool
  distance : ℚ
  sessionRadius : ℚ

/-- Embeds `validateLocationForSession` (src/unnamed/part_000, lines 655-710):
loads the session, requires it active, computes the distance from the session
center to the student location and compares it with the session radius
(equality counts as within). -/
def validateLocationForSession (calcDistance : GeoPoint → GeoPoint → ℚ)
    (db : DB) (sessionId : String) (studentLocation : GeoPoint) :
    Except String LocationValidation :=
  if sessionId = "" then .error "Session ID is required"
  else
    match lookupA db.sessions sessionId with
    | none => .error "Session not found"
    | some s =>
      if s.status ≠ "active" then
        .error ("Session is " ++ s.status ++ ", not active")
      else
        let distance := calcDistance s.location studentLocation
        .ok { isWithinRadius := distance ≤ s.radius
              distance := distance
              sessionRadius := s.radius }

/-- Embeds `checkInToSession` (src/unnamed/part_002, lines 540-638):
validates ids, loads the session (must exist and be active), requires
enrollment, rejects a duplicate record, validates the location, then
creates the attendance record. -/
def checkInToSession (calcDistance : GeoPoint → GeoPoint → ℚ) (db : DB)
    (now : Nat) (sessionId studentId : String) (locationData : GeoPoint)
    (additionalData : Bag) : Except String AttendanceRecord × DB :=
  if sessionId = "" then (.error "Session ID is required", db)
  else if studentId = "" then (.error "Student ID is required", db)
  else
    match lookupA db.sessions sessionId with
    | none => (.error "Session not found", db)
    | some s =>
      if s.status ≠ "active" then
        (.error ("Session is " ++ s.status ++ ", not active"), db)
      else if ¬ db.isEnrolled s.classId studentId then
        (.error "You are not enrolled in this class", db)
      else if (lookupA db.attendance (sessionId, studentId)).isSome then
        (.error "You have already checked in to this session", db)
      else
        match validateLocationForSession calcDistance db sessionId locationData with
        | .error e => (.error ("Location validation failed: " ++ e), db)
        | .ok v =>
          let attendanceData : AttendanceRecord :=
            { studentId := studentId
              classId := s.classId
              checkInTime := some now
              checkInLocation := some locationData
              checkOutTime := none
              status := if v.isWithinRadius then "verified" else "failed_location"
              distance := some v.distance
              isGpsVerified := v.isWithinRadius
              additional := additionalData
              lastUpdated := some now }
          (.ok attendanceData,
           { db with
               attendance := putAssoc db.attendance (sessionId, studentId) attendanceData })

/-- Result payload of `checkInStudent`. -/
structure CheckInResult where
  status : String
  distance : ℤ
  allowedRadius : ℚ

/-- Embeds `checkInStudent` (src/unnamed/part_004, lines 539-599): loads the
session (must exist and be active), requires enrollment, rejects the check-in
only when an existing record has status `checked_in` or `verified`, then
overwrites the attendance record with the fresh geofence outcome. -/
def checkInStudent (calcDistance : GeoPoint → GeoPoint → ℚ) (db : DB)
    (now : Nat) (sessionId studentId : String) (location : GeoPoint) :
    Except String CheckInResult × DB :=
  match lookupA db.sessions sessionId with
  | none => (.error ("Session " ++ sessionId ++ " not found"), db)
  | some s =>
    if s.status ≠ "active" then (.error "Session is not active", db)
    else if ¬ db.isEnrolled s.classId studentId then
      (.error "Student not enrolled in this class", db)
    else
      let alreadyCheckedIn :=
        match lookupA db.attendance (sessionId, studentId) with
        | some r => r.status == "checked_in" || r.status == "verified"
        | none => false
      if alreadyCheckedIn then (.error "Already checked in", db)
      else
        let distance := calcDistance s.location location
        let isLocationValid := distance ≤ s.radius
        let checkInStatus := if isLocationValid then "verified" else "failed_location"
        let attendanceData : AttendanceRecord :=
          { classId := s.classId
            checkInTime := some now
            checkInLocation := some location
            status := checkInStatus
            isGpsVerified := isLocationValid
            lastUpdated := some now }
        (.ok { status := checkInStatus
               distance := round distance
               allowedRadius := s.radius },
         { db with
             attendance := putAssoc db.attendance (sessionId, studentId) attendanceData })

/-- The permission probe of `createAttendanceSession`
(src/public/js/data-visualizer.js, lines 2236-2249): the caller is authorized
when the provided teacher id matches any of the teacher-id keys probed on the
class document. -/
def isTeacherAuthorized (teacherId : String) (c : ClassDoc) : Bool :=
  c.teacherId == some teacherId || c.teacherUid == some teacherId ||
  c.teacherIdSnake == some teacherId || c.teacherUidSnake == some teacherId ||
  c.teacherObjId == some teacherId || c.teacherObjUid == some teacherId ||
  c.additionalTeacherId == some teacherId || c.additionalTeacherUid == some teacherId

/-- Input object `sessionData` of `createAttendanceSession`.  `location` is
`none` when the JavaScript value is missing or fails the numeric lat/long
test; `radius = 0` corresponds to the falsy radius the source rejects
(`!sessionData.radius`). -/
structure SessionInput where
  classId : String
  location : Option GeoPoint
  radius : ℚ
  additional : Bag := []

/-- The batch repair of `createAttendanceSession`
(src/public/js/data-visualizer.js, lines 2295-2307): every session of the
class marked `active` whose `endTime` is already set has its status
corrected to `ended`. -/
def repairStaleSessions (sessions : List (String × Session)) (classId : String)
    (now : Nat) : List (String × Session) :=
  sessions.map fun p =>
    (p.1,
     if p.2.classId = classId ∧ p.2.status = "active" ∧ p.2.endTime ≠ none then
       { p.2 with status := "ended", lastUpdated := some now }
     else p.2)

/-- The session document persisted by `createAttendanceSession`
(src/public/js/data-visualizer.js, lines 2310-2340): fresh id, status
`active`, `startTime = now`, `endTime = null`, and a `classReference` debug
entry added to the additional bag. -/
def createdSession (now : Nat) (teacherId : String)
    (sessionData : SessionInput) (loc : GeoPoint) (classData : ClassDoc)
    (freshId : String) : Session :=
  { sessionId := freshId
    classId := sessionData.classId
    teacherId := teacherId
    startTime := some now
    endTime := none
    status := "active"
    location := loc
    radius := sessionData.radius
    additional := putAssoc sessionData.additional "classReference"
      (.obj [("id", .str sessionData.classId),
             ("teacherId", (classData.teacherId.map JVal.str).getD .nul),
             ("teacherUid", (classData.teacherUid.map JVal.str).getD .nul),
             ("name", .str (classData.name.getD "Unknown Class"))])
    createdAt := some now }

/-- Embeds `createAttendanceSession` (src/public/js/data-visualizer.js,
lines 2195-2357): validates the input, checks class existence and teacher
authorization, queries the sessions of the class marked `active`; if any of
them has no `endTime` it throws the conflict error (without repairing
anything); otherwise it repairs every stale marked-active session to
`ended` via a batch and then creates the new active session under the fresh
id `freshId`. -/
def createAttendanceSession (db : DB) (now : Nat) (teacherId : String)
    (sessionData : SessionInput) (freshId : String) :
    Except String Session × DB :=
  if teacherId = "" then (.error "Teacher ID is required", db)
  else if sessionData.classId = "" then (.error "Class ID is required", db)
  else
    match sessionData.location with
    | none => (.error "Valid location data is required", db)
    | some loc =>
      if sessionData.radius = 0 then (.error "Valid radius is required", db)
      else
        match lookupA db.classes sessionData.classId with
        | none => (.error "Class not found", db)
        | some classData =>
          if ¬ isTeacherAuthorized teacherId classData then
            (.error "You do not have permission to create sessions for this class", db)
          else
            let activeSessions := db.sessions.filter fun p =>
              decide (p.2.classId = sessionData.classId ∧ p.2.status = "active")
            let hasActiveSession := activeSessions.any fun p => decide (p.2.endTime = none)
            if hasActiveSession then
              (.error "There is already an active session for this class", db)
            else
              -- batch repair of the stale marked-active sessions of the class
              let repaired := repairStaleSessions db.sessions sessionData.classId now
              let fullSessionData :=
                createdSession now teacherId sessionData loc classData freshId
              (.ok fullSessionData,
               { db with sessions := putAssoc repaired freshId fullSessionData })

/-- Embeds `startAttendanceSession` (src/public/js/data-visualizer.js,
lines 2365-2422): requires the session to exist and the caller to own it;
already `active` is a no-op success, `ended` is rejected, and otherwise the
session is set active with a fresh `startTime` and cleared `endTime`. -/
def startAttendanceSession (db : DB) (now : Nat)
    (sessionId teacherId : String) : Except String String × DB :=
  if sessionId = "" then (.error "Session ID is required", db)
  else if teacherId = "" then (.error "Teacher ID is required", db)
  else
    match lookupA db.sessions sessionId with
    | none => (.error "Session not found", db)
    | some s =>
      if s.teacherId ≠ teacherId then
        (.error "You do not have permission to start this session", db)
      else if s.status = "active" then (.ok "Session is already active", db)
      else if s.status = "ended" then
        (.error "Cannot restart an ended session", db)
      else
        (.ok "Session started successfully",
         { db with
             sessions := updAssoc db.sessions sessionId
               { s with status := "active", startTime := some now, endTime := none } })

/-- The merged `additional` bag built by `checkOutFromSession`
(src/unnamed/part_002, lines 695-723): shallow-merges the caller-supplied
data over the stored bag, nests checkout data (with a timestamp) under
`checkoutInfo` when the caller supplied any, and stores the computed
duration under `durationMinutes`. -/
def checkOutMergedBag (existing : Bag) (now : Nat) (additionalData : Bag)
    (durationMinutes : Option ℤ) : Bag :=
  let merged0 := mergeBag existing additionalData
  let merged1 :=
    if additionalData.isEmpty then merged0
    else
      let prior : Bag :=
        match lookupA merged0 "checkoutInfo" with
        | some (.obj o) => o
        | _ => []
      putAssoc merged0 "checkoutInfo"
        (.obj (mergeBag (mergeBag prior [("timestamp", .str (toString now))])
          additionalData))
  match durationMinutes with
  | some d => putAssoc merged1 "durationMinutes" (.num (d : ℚ))
  | none => merged1

/-- Successful result of `checkOutFromSession`: the source returns the whole
existing record on the idempotent path and a constructed payload on the
first-checkout path. -/
inductive CheckOutResult where
  | alreadyCheckedOut : AttendanceRecord → CheckOutResult
  | checkedOut : (checkInTime : Option Nat) → (checkOutTime : Nat) →
      (status : String) → (durationMinutes : Option ℤ) → (additional : Bag) →
      CheckOutResult

/-- Embeds `checkOutFromSession` (src/unnamed/part_002, lines 647-762):
requires the session to exist and be active and the record to exist; an
already-set `checkOutTime` returns the record untouched; otherwise merges the
additional data (nesting checkout data under `checkoutInfo`), computes the
duration in minutes from `checkInTime`, stamps `checkOutTime`, and downgrades
the status to `checked_out_early_before_verification` exactly when the prior
status was `pending_verification` or `pending_checkin`. -/
def checkOutFromSession (db : DB) (now : Nat) (sessionId studentId : String)
    (additionalData : Bag) : Except String CheckOutResult × DB :=
  if sessionId = "" then (.error "Session ID is required", db)
  else if studentId = "" then (.error "Student ID is required", db)
  else
    match lookupA db.sessions sessionId with
    | none => (.error "Session not found", db)
    | some s =>
      if s.status ≠ "active" then
        (.error "Cannot check out from an inactive session", db)
      else
        match lookupA db.attendance (sessionId, studentId) with
        | none =>
          (.error "No attendance record found. You must check in before you can check out.", db)
        | some attendanceData =>
          if attendanceData.checkOutTime.isSome then
            (.ok (.alreadyCheckedOut attendanceData), db)
          else
            let durationMinutes : Option ℤ :=
              attendanceData.checkInTime.map fun t =>
                round (((now : ℚ) - (t : ℚ)) / (1000 * 60))
            let merged2 :=
              checkOutMergedBag attendanceData.additional now additionalData
                durationMinutes
            let newStatus :=
              if attendanceData.status = "pending_verification" ∨
                  attendanceData.status = "pending_checkin" then
                "checked_out_early_before_verification"
              else attendanceData.status
            let updatedRecord :=
              { attendanceData with
                  checkOutTime := some now
                  lastUpdated := some now
                  additional := merged2
                  status := newStatus }
            (.ok (.checkedOut attendanceData.checkInTime now newStatus
                durationMinutes merged2),
             { db with
                 attendance := updAssoc db.attendance (sessionId, studentId) updatedRecord })

/-- The fresh attendance record created by `manuallyMarkAttendance` when no
record exists yet (src/public/js/data-visualizer.js, lines 2782-2797):
synthetic `checkInTime`, no checkout, `isGpsVerified` from the status, and
the `manuallyCreated`/`manuallyCreatedBy` audit fields; note it carries no
`checkInLocation` and no `distance`. -/
def manualCreateRecord (now : Nat)
    (studentId classId status teacherId : String) (additionalData : Bag) :
    AttendanceRecord :=
  { studentId := studentId
    classId := classId
    checkInTime := some now
    checkOutTime := none
    status := status
    isGpsVerified := status = "verified"
    manuallyCreated := true
    manuallyCreatedBy := some teacherId
    lastUpdated := some now
    additional := additionalData }

/-- Embeds `manuallyMarkAttendance` (src/public/js/data-visualizer.js,
lines 2695-2813): validates the status against the allowed list, requires the
session, ownership and enrollment; `absent` deletes any existing record;
any other status updates the existing record (audit fields
`manuallyUpdated`/`manuallyUpdatedBy`, merged additional data) or creates a
fresh one (audit fields `manuallyCreated`/`manuallyCreatedBy`, synthetic
`checkInTime`, `isGpsVerified` from the status). -/
def manuallyMarkAttendance (db : DB) (now : Nat)
    (sessionId studentId status teacherId : String) (additionalData : Bag) :
    Except String String × DB :=
  if sessionId = "" then (.error "Session ID is required", db)
  else if studentId = "" then (.error "Student ID is required", db)
  else if status = "" then (.error "Status is required", db)
  else if teacherId = "" then (.error "Teacher ID is required", db)
  else if ¬ (status ∈ ["verified", "failed_location",
      "checked_out_early_before_verification", "absent"]) then
    (.error "Invalid status", db)
  else
    match lookupA db.sessions sessionId with
    | none => (.error "Session not found", db)
    | some s =>
      if s.teacherId ≠ teacherId then
        (.error "You do not have permission to update attendance for this session", db)
      else if ¬ db.isEnrolled s.classId studentId then
        (.error "Student is not enrolled in this class", db)
      else if status = "absent" then
        -- delete the record if it exists (deleting a missing key is the identity)
        (.ok status,
         { db with attendance := delAssoc db.attendance (sessionId, studentId) })
      else
        match lookupA db.attendance (sessionId, studentId) with
        | some existingData =>
          let merged := mergeBag existingData.additional additionalData
          (.ok status,
           { db with
               attendance := updAssoc db.attendance (sessionId, studentId)
                 { existingData with
                     status := status
                     lastUpdated := some now
                     manuallyUpdated := true
                     manuallyUpdatedBy := some teacherId
                     additional := merged } })
        | none =>
          (.ok status,
           { db with
               attendance := putAssoc db.attendance (sessionId, studentId)
                 (manualCreateRecord now studentId s.classId status teacherId
                   additionalData) })

/-- Per-student view assembled by `getSessionAttendance`
(src/public/js/data-visualizer.js, lines 2618-2640): an existing record
contributes its status, a missing record shows the student as absent. -/
structure AttendanceView where
  attended : Bool
  status : String
deriving DecidableEq

/-- The record `getSessionAttendance` builds for one enrolled student. -/
def getSessionAttendanceRecord (db : DB) (sessionId studentId : String) :
    AttendanceView :=
  match lookupA db.attendance (sessionId, studentId) with
  | some r => { attended := true, status := r.status }
  | none => { attended := false, status := "absent" }

/-- Input `verificationData` of `respondToVerificationRequest`. -/
structure VerificationData where
  location : Option GeoPoint := none
  photoUrl : Option String := none
  additional : Bag := []

/-- Result payload of `respondToVerificationRequest`. -/
structure VerifyResponse where
  verified : Bool
  additionalData : Bag

/-- Whether the verification response carries a location that passes the
geofence check of the session (src/unnamed/part_002, lines 831-835 and 870):
no location means not verified. -/
def verificationWithin (calcDistance : GeoPoint → GeoPoint → ℚ) (s : Session)
    (verificationData : VerificationData) : Bool :=
  match verificationData.location with
  | some loc => calcDistance s.location loc ≤ s.radius
  | none => false

/-- The verification request after a response (src/unnamed/part_002,
lines 842-850): marked `completed` with a response timestamp and the
response payload. -/
def completedRequest (requestData : VerificationRequest) (now : Nat)
    (verificationData : VerificationData) : VerificationRequest :=
  { requestData with
      status := "completed"
      responseTime := some now
      responseLocation := verificationData.location
      responseAdditional := verificationData.additional
      lastUpdated := some now }

/-- The attendance record after a verification response
(src/unnamed/part_002, lines 862-883): always stamped with
`verificationResponseTime` and the merged additional data; upgraded to
`verified`/`isGpsVerified` when the supplied location passes the geofence
check. -/
def verificationUpdatedRecord (calcDistance : GeoPoint → GeoPoint → ℚ)
    (s : Session) (attendanceData : AttendanceRecord) (now : Nat)
    (verificationData : VerificationData) : AttendanceRecord :=
  let base :=
    { attendanceData with
        verificationResponseTime := some now
        lastUpdated := some now
        additional := mergeBag attendanceData.additional verificationData.additional }
  if verificationWithin calcDistance s verificationData then
    { base with isGpsVerified := true, status := "verified" }
  else base

/-- Embeds `respondToVerificationRequest` (src/unnamed/part_002,
lines 774-899): requires the session active, an existing attendance record
and a `pending` verification request; marks the request `completed` with a
response timestamp; if a location was supplied and passes the geofence check
the attendance record is upgraded to `verified`/`isGpsVerified`; in every
successful case the attendance record is stamped with
`verificationResponseTime` and the merged additional data. -/
def respondToVerificationRequest (calcDistance : GeoPoint → GeoPoint → ℚ)
    (db : DB) (now : Nat) (sessionId studentId : String)
    (verificationData : VerificationData) : Except String VerifyResponse × DB :=
  if sessionId = "" then (.error "Session ID is required", db)
  else if studentId = "" then (.error "Student ID is required", db)
  else
    match lookupA db.sessions sessionId with
    | none => (.error "Session not found", db)
    | some s =>
      if s.status ≠ "active" then
        (.error ("Session is " ++ s.status ++ ", not active"), db)
      else
        match lookupA db.attendance (sessionId, studentId) with
        | none => (.error "You have not checked in to this session", db)
        | some attendanceData =>
          match lookupA db.verificationRequests (sessionId, studentId) with
          | none => (.error "No verification request found", db)
          | some requestData =>
            if requestData.status ≠ "pending" then
              (.error ("Verification request is " ++ requestData.status ++ ", not pending"), db)
            else
              (.ok { verified := verificationWithin calcDistance s verificationData
                     additionalData :=
                       mergeBag attendanceData.additional verificationData.additional },
               { db with
                   verificationRequests :=
                     updAssoc db.verificationRequests (sessionId, studentId)
                       (completedRequest requestData now verificationData)
                   attendance :=
                     updAssoc db.attendance (sessionId, studentId)
                       (verificationUpdatedRecord calcDistance s attendanceData now
                         verificationData) })

/-! ## Store lemmas -/

theorem lookup_updAssoc_self {κ α : Type} [DecidableEq κ]
    (l : List (κ × α)) (k : κ) (v : α) (h : (lookupA l k).isSome = true) :
    lookupA (updAssoc l k v) k = some v := by
  induction l with
  | nil => simp [lookupA] at h
  | cons p t ih =>
    by_cases hp : p.1 = k
    · simp [updAssoc, lookupA, hp]
    · simp only [lookupA, hp, if_false] at h
      simpa [updAssoc, lookupA, hp] using ih h

theorem lookup_updAssoc_of_isNone {κ α : Type} [DecidableEq κ]
    (l : List (κ × α)) (k : κ) (v : α) (h : lookupA l k = none) :
    lookupA (updAssoc l k v) k = none := by
  induction l with
  | nil => simp [updAssoc, lookupA]
  | cons p t ih =>
    by_cases hp : p.1 = k
    · simp [lookupA, hp] at h
    · simp only [lookupA, hp, if_false] at h
      simpa [updAssoc, lookupA, hp] using ih h

theorem lookup_putAssoc_self {κ α : Type} [DecidableEq κ]
    (l : List (κ × α)) (k : κ) (v : α) :
    lookupA (putAssoc l k v) k = some v := by
  unfold putAssoc
  by_cases h : (lookupA l k).isSome = true
  · simpa [h] using lookup_updAssoc_self l k v h
  · simp only [h, if_false]
    induction l with
    | nil => simp [lookupA]
    | cons p t ih =>
      by_cases hp : p.1 = k
      · simp [lookupA, hp] at h
      · simp only [lookupA, hp, if_false] at h
        simp only [List.cons_append, lookupA, hp, if_false]
        exact ih h

theorem lookup_delAssoc_self {κ α : Type} [DecidableEq κ]
    (l : List (κ × α)) (k : κ) :
    lookupA (delAssoc l k) k = none := by
  induction l with
  | nil => simp [delAssoc, lookupA]
  | cons p t ih =>
    by_cases hp : p.1 = k
    · simpa [delAssoc, lookupA, hp] using ih
    · simpa [delAssoc, lookupA, hp] using ih

theorem lookup_map_snd_none {κ α : Type} [DecidableEq κ]
    (l : List (κ × α)) (g : κ × α → α) (k : κ) (h : lookupA l k = none) :
    lookupA (l.map fun p => (p.1, g p)) k = none := by
  induction l with
  | nil => simp [lookupA]
  | cons p t ih =>
    by_cases hp : p.1 = k
    · simp [lookupA, hp] at h
    · simp only [lookupA, hp, if_false] at h
      simpa [lookupA, hp] using ih h

/-! ## Claim theorems -/

/-- **C2.** For every successful `checkInToSession` on a session `s`, the
created attendance record (returned and stored) has status `verified` iff
the computed distance from the session center to the check-in location is at
most the session radius (equality counts as within), otherwise status
`failed_location`; `isGpsVerified` equals that within-radius test; and the
computed distance is stored on the record.  Quantified over an arbitrary
distance function, which the code instantiates with the haversine formula. -/
theorem C2_checkInGeofence (calcDistance : GeoPoint → GeoPoint → ℚ)
    (db : DB) (now : Nat) (sessionId studentId : String) (loc : GeoPoint)
    (extra : Bag) (s : Session) (r : AttendanceRecord) (db' : DB)
    (hs : lookupA db.sessions sessionId = some s)
    (hok : checkInToSession calcDistance db now sessionId studentId loc extra
      = (.ok r, db')) :
    (r.status = "verified" ↔ calcDistance s.location loc ≤ s.radius) ∧
    (¬ calcDistance s.location loc ≤ s.radius → r.status = "failed_location") ∧
    (r.isGpsVerified = true ↔ calcDistance s.location loc ≤ s.radius) ∧
    r.distance = some (calcDistance s.location loc) ∧
    lookupA db'.attendance (sessionId, studentId) = some r := by
  by_cases h1 : sessionId = ""
  · simp [checkInToSession, h1] at hok
  by_cases h2 : studentId = ""
  · simp [checkInToSession, h1, h2] at hok
  by_cases h3 : s.status = "active"
  swap
  · simp [checkInToSession, h1, h2, hs, h3] at hok
  by_cases h4 : db.isEnrolled s.classId studentId = true
  swap
  · simp [checkInToSession, h1, h2, hs, h3, h4] at hok
  by_cases h5 : (lookupA db.attendance (sessionId, studentId)).isSome = true
  · simp [checkInToSession, h1, h2, hs, h3, h4, h5] at hok
  have hfst := congrArg Prod.fst hok
  have hsnd := congrArg Prod.snd hok
  simp [checkInToSession, validateLocationForSession, h1, h2, hs, h3, h4, h5] at hfst hsnd
  subst hfst
  subst hsnd
  by_cases h6 : calcDistance s.location loc ≤ s.radius
  · exact ⟨by simp [h6], by simp [h6], by simp [h6], rfl,
      lookup_putAssoc_self _ _ _⟩
  · exact ⟨by simp [h6], by simp [h6], by simp [h6], rfl,
      lookup_putAssoc_self _ _ _⟩

/-- Fixture for the C2 witness: an active session at `(40, -75)` with radius
`50` and one enrolled student. -/
def exC2session : Session :=
  { classId := "c1", teacherId := "t1", status := "active",
    location := ⟨40, -75⟩, radius := 50 }

/-- Fixture store for the C2 witness. -/
def exC2db : DB := { sessions := [("s1", exC2session)], enrollment := [("c1", "u1")] }

/-- Fixture distance function for the C2 witness (constant 7 meters). -/
def exC2dist : GeoPoint → GeoPoint → ℚ := fun _ _ => 7

/-- Witness for C2 at a concrete input. -/
theorem C2_checkInGeofence_witness :
    ∃ r db',
      checkInToSession exC2dist exC2db 1000 "s1" "u1" ⟨40, -75⟩ [] = (.ok r, db') ∧
      (r.status = "verified" ↔ exC2dist exC2session.location ⟨40, -75⟩ ≤ exC2session.radius) ∧
      lookupA db'.attendance ("s1", "u1") = some r := by
  refine ⟨_, _, rfl, ?_, ?_⟩
  · exact (C2_checkInGeofence exC2dist exC2db 1000 "s1" "u1" ⟨40, -75⟩ []
      exC2session _ _ rfl rfl).1
  · exact (C2_checkInGeofence exC2dist exC2db 1000 "s1" "u1" ⟨40, -75⟩ []
      exC2session _ _ rfl rfl).2.2.2.2

/-- **C1 (amended).** A second check-in for the same `(sessionId, studentId)`
pair: in `checkInToSession` (part_002) it always fails with the conflict
error, regardless of the location and of the existing record's status; in
`checkInStudent` (part_004) it fails only when the existing record's status
is `checked_in` or `verified`, and for any other existing status the call
proceeds (overwriting the record). -/
theorem C1_secondCheckIn :
    (∀ (calcDistance : GeoPoint → GeoPoint → ℚ) (db : DB) (now : Nat)
       (sessionId studentId : String) (loc : GeoPoint) (extra : Bag) (s : Session),
       sessionId ≠ "" → studentId ≠ "" →
       lookupA db.sessions sessionId = some s → s.status = "active" →
       db.isEnrolled s.classId studentId = true →
       (lookupA db.attendance (sessionId, studentId)).isSome = true →
       checkInToSession calcDistance db now sessionId studentId loc extra
         = (.error "You have already checked in to this session", db)) ∧
    (∀ (calcDistance : GeoPoint → GeoPoint → ℚ) (db : DB) (now : Nat)
       (sessionId studentId : String) (loc : GeoPoint) (s : Session)
       (r : AttendanceRecord),
       lookupA db.sessions sessionId = some s → s.status = "active" →
       db.isEnrolled s.classId studentId = true →
       lookupA db.attendance (sessionId, studentId) = some r →
       (r.status = "checked_in" ∨ r.status = "verified") →
       checkInStudent calcDistance db now sessionId studentId loc
         = (.error "Already checked in", db)) ∧
    (∀ (calcDistance : GeoPoint → GeoPoint → ℚ) (db : DB) (now : Nat)
       (sessionId studentId : String) (loc : GeoPoint) (s : Session)
       (r : AttendanceRecord),
       lookupA db.sessions sessionId = some s → s.status = "active" →
       db.isEnrolled s.classId studentId = true →
       lookupA db.attendance (sessionId, studentId) = some r →
       ¬ r.status = "checked_in" → ¬ r.status = "verified" →
       (checkInStudent calcDistance db now sessionId studentId loc).1.isOk = true) := by
  refine ⟨?_, ?_, ?_⟩
  · intro cd db now sessionId studentId loc extra s h1 h2 hs h3 h4 h5
    simp [checkInToSession, h1, h2, hs, h3, h4, h5]
  · intro cd db now sessionId studentId loc s r hs h3 h4 hr hst
    rcases hst with hst | hst <;>
      simp [checkInStudent, hs, h3, h4, hr, hst]
  · intro cd db now sessionId studentId loc s r hs h3 h4 hr hst1 hst2
    simp [checkInStudent, hs, h3, h4, hr, hst1, hst2, Except.isOk, Except.toBool]

/-- Fixture for C1: an active session. -/
def exC1session : Session :=
  { classId := "c1", teacherId := "t1", status := "active",
    location := ⟨40, -75⟩, radius := 50 }

/-- Fixture for C1: an existing record whose status is `failed_location`. -/
def exC1failedRec : AttendanceRecord :=
  { studentId := "u1", classId := "c1", checkInTime := some 10,
    status := "failed_location", isGpsVerified := false }

/-- Fixture for C1: an existing record whose status is `verified`. -/
def exC1verifiedRec : AttendanceRecord :=
  { studentId := "u1", classId := "c1", checkInTime := some 10,
    status := "verified", isGpsVerified := true }

/-- Fixture store for C1 with a `failed_location` record already present. -/
def exC1dbFailed : DB :=
  { sessions := [("s1", exC1session)], enrollment := [("c1", "u1")],
    attendance := [(("s1", "u1"), exC1failedRec)] }

/-- Fixture store for C1 with a `verified` record already present. -/
def exC1dbVerified : DB :=
  { sessions := [("s1", exC1session)], enrollment := [("c1", "u1")],
    attendance := [(("s1", "u1"), exC1verifiedRec)] }

/-- Counterexample to C1 as frozen: an attendance record for
`("s1", "u1")` already exists (status `failed_location`), yet a second
`checkInStudent` call does **not** fail - it succeeds. -/
theorem C1_counterexample :
    (lookupA exC1dbFailed.attendance ("s1", "u1")).isSome = true ∧
    (checkInStudent (fun _ _ => 0) exC1dbFailed 2000 "s1" "u1" ⟨40, -75⟩).1.isOk
      = true := by
  exact ⟨rfl, rfl⟩

/-- Witness for C1 at concrete inputs: the duplicate check-in fails in
`checkInToSession`, and fails in `checkInStudent` when the existing record
is `verified`. -/
theorem C1_secondCheckIn_witness :
    checkInToSession (fun _ _ => 0) exC1dbFailed 2000 "s1" "u1" ⟨40, -75⟩ []
      = (.error "You have already checked in to this session", exC1dbFailed) ∧
    checkInStudent (fun _ _ => 0) exC1dbVerified 2000 "s1" "u1" ⟨40, -75⟩
      = (.error "Already checked in", exC1dbVerified) :=
  ⟨C1_secondCheckIn.1 (fun _ _ => 0) exC1dbFailed 2000 "s1" "u1" ⟨40, -75⟩ []
      exC1session (by decide) (by decide) rfl rfl rfl rfl,
   C1_secondCheckIn.2.1 (fun _ _ => 0) exC1dbVerified 2000 "s1" "u1" ⟨40, -75⟩
      exC1session exC1verifiedRec rfl rfl rfl rfl (Or.inr rfl)⟩

/-- **C4.** Check-out is idempotent: when the attendance record already has
`checkOutTime` set, a further `checkOutFromSession` call succeeds, returns
the existing record data, and changes nothing in the store. -/
theorem C4_checkOutIdempotent (db : DB) (now : Nat)
    (sessionId studentId : String) (extra : Bag) (s : Session)
    (r : AttendanceRecord)
    (h1 : sessionId ≠ "") (h2 : studentId ≠ "")
    (hs : lookupA db.sessions sessionId = some s) (hact : s.status = "active")
    (hr : lookupA db.attendance (sessionId, studentId) = some r)
    (hco : r.checkOutTime.isSome = true) :
    checkOutFromSession db now sessionId studentId extra
      = (.ok (.alreadyCheckedOut r), db) := by
  simp [checkOutFromSession, h1, h2, hs, hact, hr, hco]

/-- Fixture for C4: a record that has already checked out. -/
def exC4rec : AttendanceRecord :=
  { studentId := "u1", classId := "c1", checkInTime := some 10,
    checkOutTime := some 700, status := "verified", isGpsVerified := true }

/-- Fixture for C4: the active session. -/
def exC4session : Session :=
  { classId := "c1", teacherId := "t1", status := "active",
    location := ⟨40, -75⟩, radius := 50 }

/-- Fixture store for C4. -/
def exC4db : DB :=
  { sessions := [("s1", exC4session)],
    enrollment := [("c1", "u1")],
    attendance := [(("s1", "u1"), exC4rec)] }

/-- Witness for C4 at a concrete input. -/
theorem C4_checkOutIdempotent_witness :
    checkOutFromSession exC4db 900 "s1" "u1" []
      = (.ok (.alreadyCheckedOut exC4rec), exC4db) :=
  C4_checkOutIdempotent exC4db 900 "s1" "u1" [] exC4session exC4rec
    (by decide) (by decide) rfl rfl rfl rfl

/-- **C5.** Ended is terminal: `startAttendanceSession` by the owning teacher
on an `ended` session always fails with the invalid-transition error and
leaves the store (hence the session) unchanged, while on an already `active`
session it succeeds as a no-op. -/
theorem C5_endedTerminal (db : DB) (now : Nat) (sessionId teacherId : String)
    (s : Session)
    (h1 : sessionId ≠ "") (h2 : teacherId ≠ "")
    (hs : lookupA db.sessions sessionId = some s)
    (hown : s.teacherId = teacherId) :
    (s.status = "ended" →
      startAttendanceSession db now sessionId teacherId
        = (.error "Cannot restart an ended session", db)) ∧
    (s.status = "active" →
      startAttendanceSession db now sessionId teacherId
        = (.ok "Session is already active", db)) := by
  constructor <;> intro hst <;>
    simp [startAttendanceSession, h1, h2, hs, hown, hst]

/-- Fixture for C5: an ended session and an active session of one teacher. -/
def exC5ended : Session :=
  { classId := "c1", teacherId := "t1", status := "ended",
    startTime := some 100, endTime := some 500, location := ⟨0, 0⟩, radius := 10 }

/-- Fixture for C5: the active session. -/
def exC5active : Session :=
  { classId := "c2", teacherId := "t1", status := "active",
    startTime := some 100, location := ⟨0, 0⟩, radius := 10 }

/-- Fixture store for C5. -/
def exC5db : DB := { sessions := [("s1", exC5ended), ("s2", exC5active)] }

/-- Witness for C5 at concrete inputs. -/
theorem C5_endedTerminal_witness :
    startAttendanceSession exC5db 900 "s1" "t1"
      = (.error "Cannot restart an ended session", exC5db) ∧
    startAttendanceSession exC5db 900 "s2" "t1"
      = (.ok "Session is already active", exC5db) :=
  ⟨(C5_endedTerminal exC5db 900 "s1" "t1" exC5ended (by decide) (by decide)
      rfl rfl).1 rfl,
   (C5_endedTerminal exC5db 900 "s2" "t1" exC5active (by decide) (by decide)
      rfl rfl).2 rfl⟩

/-- **C6.** First check-out on an existing record in an active session:
`checkOutTime` is set to now, `durationMinutes` is computed from
`checkInTime`, and the status is changed to
`checked_out_early_before_verification` exactly when the prior status was a
pending-style one (`pending_verification` or `pending_checkin`); in
particular a `verified` record keeps status `verified`. -/
theorem C6_checkOutTransition (db : DB) (now : Nat)
    (sessionId studentId : String) (extra : Bag) (s : Session)
    (r : AttendanceRecord) (t : Nat)
    (h1 : sessionId ≠ "") (h2 : studentId ≠ "")
    (hs : lookupA db.sessions sessionId = some s) (hact : s.status = "active")
    (hr : lookupA db.attendance (sessionId, studentId) = some r)
    (hco : r.checkOutTime = none) (hci : r.checkInTime = some t) :
    checkOutFromSession db now sessionId studentId extra
      = (.ok (.checkedOut (some t) now
          (if r.status = "pending_verification" ∨ r.status = "pending_checkin"
           then "checked_out_early_before_verification" else r.status)
          (some (round (((now : ℚ) - (t : ℚ)) / (1000 * 60))))
          (checkOutMergedBag r.additional now extra
            (some (round (((now : ℚ) - (t : ℚ)) / (1000 * 60)))))),
         { db with attendance := updAssoc db.attendance (sessionId, studentId)
                     ({ r with
                         checkOutTime := some now
                         lastUpdated := some now
                         additional := checkOutMergedBag r.additional now extra
                           (some (round (((now : ℚ) - (t : ℚ)) / (1000 * 60))))
                         status :=
                           if r.status = "pending_verification" ∨
                               r.status = "pending_checkin"
                           then "checked_out_early_before_verification"
                           else r.status }) }) ∧
    (r.status = "verified" →
      (if r.status = "pending_verification" ∨ r.status = "pending_checkin"
       then "checked_out_early_before_verification" else r.status)
        = "verified") := by
  constructor
  · have hcoF : r.checkOutTime.isSome = false := by simp [hco]
    simp [checkOutFromSession, h1, h2, hs, hact, hr, hcoF, hci]
  · intro hv
    rw [if_neg]
    · exact hv
    · rw [hv]
      decide

/-- Fixture for C6: a verified record not yet checked out,
checked in at time 10000 ms. -/
def exC6rec : AttendanceRecord :=
  { studentId := "u1", classId := "c1", checkInTime := some 10000,
    checkOutTime := none, status := "verified", isGpsVerified := true }

/-- Fixture for C6: the active session. -/
def exC6session : Session :=
  { classId := "c1", teacherId := "t1", status := "active",
    location := ⟨40, -75⟩, radius := 50 }

/-- Fixture store for C6. -/
def exC6db : DB :=
  { sessions := [("s1", exC6session)],
    enrollment := [("c1", "u1")],
    attendance := [(("s1", "u1"), exC6rec)] }

/-- Witness for C6 at a concrete input: check-out at 610000 ms, ten minutes
after the check-in at 10000 ms, keeps the `verified` status and computes a
duration of 10 minutes. -/
theorem C6_checkOutTransition_witness :
    checkOutFromSession exC6db 610000 "s1" "u1" []
      = (.ok (.checkedOut (some 10000) 610000 "verified" (some 10)
           (checkOutMergedBag exC6rec.additional 610000 [] (some 10))),
         { exC6db with
             attendance := updAssoc exC6db.attendance ("s1", "u1")
                             ({ exC6rec with
                                 checkOutTime := some 610000
                                 lastUpdated := some 610000
                                 additional := checkOutMergedBag exC6rec.additional
                                   610000 [] (some 10)
                                 status := "verified" }) }) := by
  have h := (C6_checkOutTransition exC6db 610000 "s1" "u1" [] exC6session exC6rec
    10000 (by decide) (by decide) rfl rfl rfl rfl rfl).1
  rw [show (if exC6rec.status = "pending_verification" ∨
        exC6rec.status = "pending_checkin"
      then "checked_out_early_before_verification" else exC6rec.status)
      = "verified" from by decide,
    show round ((((610000 : ℕ) : ℚ) - ((10000 : ℕ) : ℚ)) / (1000 * 60)) = (10 : ℤ)
      from by norm_num [round_eq]] at h
  exact h

/-- **C7 (amended).** `manuallyMarkAttendance` by the owning teacher on an
enrolled student with a valid status: `absent` deletes the record if present
(and succeeds even with no record, so `getSessionAttendance` then shows the
student absent); any other valid status **updates** an existing record with
the new status, `manuallyUpdated=true`, `manuallyUpdatedBy=teacherId` and the
merged extension data but leaves `isGpsVerified` unchanged (even for
`verified`), while with no existing record it **creates** one carrying
`manuallyCreated=true`/`manuallyCreatedBy=teacherId` (not `manuallyUpdated`)
and `isGpsVerified` set iff the new status is `verified`. -/
theorem C7_manualOverride (db : DB) (now : Nat)
    (sessionId studentId status teacherId : String) (extra : Bag) (s : Session)
    (h1 : sessionId ≠ "") (h2 : studentId ≠ "") (h3 : status ≠ "")
    (h4 : teacherId ≠ "")
    (hvalid : status ∈ ["verified", "failed_location",
      "checked_out_early_before_verification", "absent"])
    (hs : lookupA db.sessions sessionId = some s)
    (hown : s.teacherId = teacherId)
    (henr : db.isEnrolled s.classId studentId = true) :
    (status = "absent" →
      manuallyMarkAttendance db now sessionId studentId status teacherId extra
        = (.ok status,
           { db with attendance := delAssoc db.attendance (sessionId, studentId) }) ∧
      getSessionAttendanceRecord
        (manuallyMarkAttendance db now sessionId studentId status teacherId extra).2
        sessionId studentId = { attended := false, status := "absent" }) ∧
    (status ≠ "absent" → ∀ r, lookupA db.attendance (sessionId, studentId) = some r →
      manuallyMarkAttendance db now sessionId studentId status teacherId extra
        = (.ok status,
           { db with attendance := updAssoc db.attendance (sessionId, studentId)
                       ({ r with
                           status := status
                           lastUpdated := some now
                           manuallyUpdated := true
                           manuallyUpdatedBy := some teacherId
                           additional := mergeBag r.additional extra }) }) ∧
      ({ r with
           status := status
           lastUpdated := some now
           manuallyUpdated := true
           manuallyUpdatedBy := some teacherId
           additional := mergeBag r.additional extra } :
         AttendanceRecord).isGpsVerified = r.isGpsVerified) ∧
    (status ≠ "absent" → lookupA db.attendance (sessionId, studentId) = none →
      manuallyMarkAttendance db now sessionId studentId status teacherId extra
        = (.ok status,
           { db with attendance := putAssoc db.attendance (sessionId, studentId)
                       (manualCreateRecord now studentId s.classId status teacherId
                         extra) })) := by
  refine ⟨?_, ?_, ?_⟩
  · intro habs
    have heq : manuallyMarkAttendance db now sessionId studentId status teacherId extra
        = (.ok status,
           { db with attendance := delAssoc db.attendance (sessionId, studentId) }) := by
      simp [manuallyMarkAttendance, h1, h2, h3, h4, hvalid, hs, hown, henr, habs]
    refine ⟨heq, ?_⟩
    rw [heq]
    simp [getSessionAttendanceRecord, lookup_delAssoc_self]
  · intro habs r hr
    refine ⟨?_, rfl⟩
    simp [manuallyMarkAttendance, h1, h2, h3, h4, hvalid, hs, hown, henr, habs, hr]
  · intro habs hnone
    simp [manuallyMarkAttendance, h1, h2, h3, h4, hvalid, hs, hown, henr, habs, hnone]

/-- Fixture for C7: the active session of teacher t1. -/
def exC7session : Session :=
  { classId := "c1", teacherId := "t1", status := "active",
    location := ⟨40, -75⟩, radius := 50 }

/-- Fixture for C7: an existing record from a failed-location check-in,
so `isGpsVerified = false`. -/
def exC7rec : AttendanceRecord :=
  { studentId := "u1", classId := "c1", checkInTime := some 10,
    status := "failed_location", isGpsVerified := false }

/-- Fixture store for C7. -/
def exC7db : DB :=
  { sessions := [("s1", exC7session)],
    enrollment := [("c1", "u1")],
    attendance := [(("s1", "u1"), exC7rec)] }

/-- Counterexample to C7 as frozen: overriding an existing record to
`verified` succeeds and sets the status, but leaves `isGpsVerified = false`
(the claim required it to be set to `true`). -/
theorem C7_counterexample :
    (manuallyMarkAttendance exC7db 50 "s1" "u1" "verified" "t1" []).1
      = .ok "verified" ∧
    (lookupA (manuallyMarkAttendance exC7db 50 "s1" "u1" "verified" "t1" []).2.attendance
        ("s1", "u1")).map AttendanceRecord.status = some "verified" ∧
    (lookupA (manuallyMarkAttendance exC7db 50 "s1" "u1" "verified" "t1" []).2.attendance
        ("s1", "u1")).map AttendanceRecord.isGpsVerified = some false := by
  exact ⟨rfl, rfl, rfl⟩

/-- Witness for C7 at concrete inputs: the absent branch on the fixture
store. -/
theorem C7_manualOverride_witness :
    manuallyMarkAttendance exC7db 50 "s1" "u1" "absent" "t1" []
      = (.ok "absent",
         { exC7db with attendance := delAssoc exC7db.attendance ("s1", "u1") }) ∧
    getSessionAttendanceRecord
      (manuallyMarkAttendance exC7db 50 "s1" "u1" "absent" "t1" []).2 "s1" "u1"
      = { attended := false, status := "absent" } :=
  (C7_manualOverride exC7db 50 "s1" "u1" "absent" "t1" [] exC7session
    (by decide) (by decide) (by decide) (by decide) (by decide) rfl rfl rfl).1 rfl

/-- **C10.** A `manuallyMarkAttendance` call with a valid non-absent status
and no existing record creates a record stamped with a synthetic
`checkInTime = now`, `checkOutTime = null`, the audit fields
`manuallyCreated = true` and `manuallyCreatedBy = teacherId`, and no
`checkInLocation` or `distance` data. -/
theorem C10_manualCreateAudit (db : DB) (now : Nat)
    (sessionId studentId status teacherId : String) (extra : Bag) (s : Session)
    (h1 : sessionId ≠ "") (h2 : studentId ≠ "") (h3 : status ≠ "")
    (h4 : teacherId ≠ "")
    (hvalid : status ∈ ["verified", "failed_location",
      "checked_out_early_before_verification", "absent"])
    (habs : status ≠ "absent")
    (hs : lookupA db.sessions sessionId = some s)
    (hown : s.teacherId = teacherId)
    (henr : db.isEnrolled s.classId studentId = true)
    (hnone : lookupA db.attendance (sessionId, studentId) = none) :
    lookupA (manuallyMarkAttendance db now sessionId studentId status teacherId
        extra).2.attendance (sessionId, studentId)
      = some (manualCreateRecord now studentId s.classId status teacherId extra) ∧
    (manualCreateRecord now studentId s.classId status teacherId extra).checkInTime
      = some now ∧
    (manualCreateRecord now studentId s.classId status teacherId extra).checkOutTime
      = none ∧
    (manualCreateRecord now studentId s.classId status teacherId extra).manuallyCreated
      = true ∧
    (manualCreateRecord now studentId s.classId status teacherId extra).manuallyCreatedBy
      = some teacherId ∧
    (manualCreateRecord now studentId s.classId status teacherId extra).checkInLocation
      = none ∧
    (manualCreateRecord now studentId s.classId status teacherId extra).distance
      = none ∧
    (manualCreateRecord now studentId s.classId status teacherId extra).manuallyUpdated
      = false := by
  refine ⟨?_, rfl, rfl, rfl, rfl, rfl, rfl, rfl⟩
  have heq : (manuallyMarkAttendance db now sessionId studentId status teacherId
      extra).2.attendance
      = putAssoc db.attendance (sessionId, studentId)
          (manualCreateRecord now studentId s.classId status teacherId extra) := by
    simp [manuallyMarkAttendance, h1, h2, h3, h4, hvalid, hs, hown, henr, habs, hnone]
  rw [heq]
  exact lookup_putAssoc_self _ _ _

/-- Fixture for C10: the active session. -/
def exC10session : Session :=
  { classId := "c1", teacherId := "t1", status := "active",
    location := ⟨40, -75⟩, radius := 50 }

/-- Fixture store for C10: enrolled student with no attendance record. -/
def exC10db : DB :=
  { sessions := [("s1", exC10session)], enrollment := [("c1", "u1")] }

/-- Witness for C10 at a concrete input. -/
theorem C10_manualCreateAudit_witness :
    lookupA (manuallyMarkAttendance exC10db 77 "s1" "u1" "verified" "t1"
        []).2.attendance ("s1", "u1")
      = some (manualCreateRecord 77 "u1" "c1" "verified" "t1" []) ∧
    (manualCreateRecord 77 "u1" "c1" "verified" "t1" []).manuallyCreated = true :=
  ⟨(C10_manualCreateAudit exC10db 77 "s1" "u1" "verified" "t1" [] exC10session
      (by decide) (by decide) (by decide) (by decide) (by decide) (by decide)
      rfl rfl rfl rfl).1,
   (C10_manualCreateAudit exC10db 77 "s1" "u1" "verified" "t1" [] exC10session
      (by decide) (by decide) (by decide) (by decide) (by decide) (by decide)
      rfl rfl rfl rfl).2.2.2.1⟩

/-- **C8 (amended).** `createAttendanceSession` fails with a validation
error - creating nothing - when the location is missing or non-numeric, and
when the radius is `0` (the source rejects a falsy radius); but strict
positivity is not enforced: a negative radius passes validation (see the
counterexample). -/
theorem C8_createValidation (db : DB) (now : Nat) (teacherId : String)
    (sessionData : SessionInput) (freshId : String)
    (h1 : teacherId ≠ "") (h2 : sessionData.classId ≠ "") :
    (sessionData.location = none →
      createAttendanceSession db now teacherId sessionData freshId
        = (.error "Valid location data is required", db)) ∧
    (∀ loc, sessionData.location = some loc → sessionData.radius = 0 →
      createAttendanceSession db now teacherId sessionData freshId
        = (.error "Valid radius is required", db)) := by
  constructor
  · intro hloc
    simp [createAttendanceSession, h1, h2, hloc]
  · intro loc hloc hrad
    simp [createAttendanceSession, h1, h2, hloc, hrad]

/-- Fixture for C8: the class document owned by teacher t1. -/
def exC8class : ClassDoc := { teacherId := some "t1" }

/-- Fixture store for C8. -/
def exC8db : DB := { classes := [("c1", exC8class)] }

/-- Counterexample to C8 as frozen: creation with a *negative* radius
(`-5`) does not fail - it succeeds and persists a session with radius
`-5`. -/
theorem C8_counterexample :
    (createAttendanceSession exC8db 10 "t1"
        { classId := "c1", location := some ⟨40, -75⟩, radius := -5 } "s1").1.isOk
      = true ∧
    (lookupA (createAttendanceSession exC8db 10 "t1"
        { classId := "c1", location := some ⟨40, -75⟩, radius := -5 } "s1").2.sessions
        "s1").map Session.radius = some (-5) := by
  exact ⟨rfl, rfl⟩

/-- Witness for C8 at concrete inputs: missing location and zero radius both
fail with the validation error and leave the store unchanged. -/
theorem C8_createValidation_witness :
    createAttendanceSession exC8db 10 "t1"
      { classId := "c1", location := none, radius := 3 } "s1"
      = (.error "Valid location data is required", exC8db) ∧
    createAttendanceSession exC8db 10 "t1"
      { classId := "c1", location := some ⟨40, -75⟩, radius := 0 } "s1"
      = (.error "Valid radius is required", exC8db) :=
  ⟨(C8_createValidation exC8db 10 "t1"
      { classId := "c1", location := none, radius := 3 } "s1"
      (by decide) (by decide)).1 rfl,
   (C8_createValidation exC8db 10 "t1"
      { classId := "c1", location := some ⟨40, -75⟩, radius := 0 } "s1"
      (by decide) (by decide)).2 ⟨40, -75⟩ rfl rfl⟩

/-- Path lemma: with valid input, an existing class, an authorized teacher
and no id clash, `createAttendanceSession` reduces to the conflict test on
the truly-active sessions of the class. -/
theorem createAttendanceSession_validPath (db : DB) (now : Nat)
    (teacherId : String) (sessionData : SessionInput) (freshId : String)
    (loc : GeoPoint) (c : ClassDoc)
    (h1 : teacherId ≠ "") (h2 : sessionData.classId ≠ "")
    (hloc : sessionData.location = some loc) (hrad : sessionData.radius ≠ 0)
    (hc : lookupA db.classes sessionData.classId = some c)
    (hauth : isTeacherAuthorized teacherId c = true) :
    createAttendanceSession db now teacherId sessionData freshId
      = (if ((db.sessions.filter fun p =>
            decide (p.2.classId = sessionData.classId ∧ p.2.status = "active")).any
            fun p => decide (p.2.endTime = none)) then
          (.error "There is already an active session for this class", db)
        else
          (.ok (createdSession now teacherId sessionData loc c freshId),
           { db with sessions :=
                        putAssoc
                          (repairStaleSessions db.sessions sessionData.classId now)
                          freshId
                          (createdSession now teacherId sessionData loc c freshId) })) := by
  simp [createAttendanceSession, h1, h2, hloc, hrad, hc, hauth]

/-- **C3 (amended).** For `createAttendanceSession` with valid input, an
existing class, an authorized teacher and a fresh session id: the call fails
with the conflict error if and only if some session of the class is truly
active (status `active` with `endTime` absent), and on that conflict the
store is left unchanged - stale marked-active sessions are *not* repaired
(the repair happens only when no session is truly active).  When no session
is truly active, every session of the class marked `active` (all of which
then have an `endTime`) is corrected to `ended`, and a new session with
status `active` and `endTime` absent is created under the fresh id. -/
theorem C3_createSession (db : DB) (now : Nat) (teacherId : String)
    (sessionData : SessionInput) (freshId : String) (loc : GeoPoint)
    (c : ClassDoc)
    (h1 : teacherId ≠ "") (h2 : sessionData.classId ≠ "")
    (hloc : sessionData.location = some loc) (hrad : sessionData.radius ≠ 0)
    (hc : lookupA db.classes sessionData.classId = some c)
    (hauth : isTeacherAuthorized teacherId c = true)
    (hfresh : lookupA db.sessions freshId = none) :
    ((∃ p ∈ db.sessions, p.2.classId = sessionData.classId ∧
        p.2.status = "active" ∧ p.2.endTime = none) →
      createAttendanceSession db now teacherId sessionData freshId
        = (.error "There is already an active session for this class", db)) ∧
    ((¬ ∃ p ∈ db.sessions, p.2.classId = sessionData.classId ∧
        p.2.status = "active" ∧ p.2.endTime = none) →
      createAttendanceSession db now teacherId sessionData freshId
        = (.ok (createdSession now teacherId sessionData loc c freshId),
           { db with sessions :=
                        putAssoc
                          (repairStaleSessions db.sessions sessionData.classId now)
                          freshId
                          (createdSession now teacherId sessionData loc c freshId) }) ∧
      (createdSession now teacherId sessionData loc c freshId).status = "active" ∧
      (createdSession now teacherId sessionData loc c freshId).endTime = none ∧
      (createdSession now teacherId sessionData loc c freshId).classId
        = sessionData.classId ∧
      lookupA (putAssoc (repairStaleSessions db.sessions sessionData.classId now)
          freshId (createdSession now teacherId sessionData loc c freshId)) freshId
        = some (createdSession now teacherId sessionData loc c freshId) ∧
      ∀ p ∈ db.sessions, p.2.classId = sessionData.classId →
        p.2.status = "active" →
        (p.1, { p.2 with status := "ended", lastUpdated := some now })
          ∈ putAssoc (repairStaleSessions db.sessions sessionData.classId now)
              freshId (createdSession now teacherId sessionData loc c freshId)) := by
  have hpath := createAttendanceSession_validPath db now teacherId sessionData
    freshId loc c h1 h2 hloc hrad hc hauth
  constructor
  · intro hex
    have hb : ((db.sessions.filter fun p =>
        decide (p.2.classId = sessionData.classId ∧ p.2.status = "active")).any
        fun p => decide (p.2.endTime = none)) = true := by
      rw [List.any_eq_true]
      obtain ⟨p, hp, hcid, hst, het⟩ := hex
      exact ⟨p, List.mem_filter.mpr ⟨hp, by simp [hcid, hst]⟩, by simp [het]⟩
    rw [hpath, hb]
    simp
  · intro hex
    push_neg at hex
    have hb : ((db.sessions.filter fun p =>
        decide (p.2.classId = sessionData.classId ∧ p.2.status = "active")).any
        fun p => decide (p.2.endTime = none)) = false := by
      rw [Bool.eq_false_iff]
      intro hany
      rw [List.any_eq_true] at hany
      obtain ⟨p, hpf, hpe⟩ := hany
      obtain ⟨hp, hpc⟩ := List.mem_filter.mp hpf
      simp only [decide_eq_true_eq] at hpc hpe
      exact hex p hp hpc.1 hpc.2 hpe
    have hrep : lookupA (repairStaleSessions db.sessions sessionData.classId now)
        freshId = none := by
      unfold repairStaleSessions
      exact lookup_map_snd_none _ _ _ hfresh
    refine ⟨?_, rfl, rfl, rfl, lookup_putAssoc_self _ _ _, ?_⟩
    · rw [hpath, hb]
      simp
    · intro p hp hcid hst
      have het : p.2.endTime ≠ none := hex p hp hcid hst
      have hmem : (p.1, { p.2 with status := "ended", lastUpdated := some now })
          ∈ repairStaleSessions db.sessions sessionData.classId now := by
        unfold repairStaleSessions
        have hm := List.mem_map_of_mem (fun q =>
          (q.1,
           if q.2.classId = sessionData.classId ∧ q.2.status = "active" ∧
               q.2.endTime ≠ none then
             { q.2 with status := "ended", lastUpdated := some now }
           else q.2)) hp
        simpa [hcid, hst, het] using hm
      rw [putAssoc, hrep]
      simp only [Option.isSome_none, Bool.false_eq_true, if_false]
      exact List.mem_append_left _ hmem
/-- Fixture for C3: the class document. -/
def exC3class : ClassDoc := { teacherId := some "t1" }

/-- Fixture for C3: a stale session - marked `active` although its
`endTime` is set. -/
def exC3staleSession : Session :=
  { classId := "c1", teacherId := "t1", status := "active",
    startTime := some 10, endTime := some 500, location := ⟨40, -75⟩,
    radius := 50 }

/-- Fixture for C3: a truly active session (no `endTime`). -/
def exC3activeSession : Session :=
  { classId := "c1", teacherId := "t1", status := "active",
    startTime := some 20, endTime := none, location := ⟨40, -75⟩,
    radius := 50 }

/-- Fixture store for C3 with both a stale and a truly active session. -/
def exC3db : DB :=
  { sessions := [("s1", exC3staleSession), ("s2", exC3activeSession)],
    classes := [("c1", exC3class)] }

/-- Fixture store for C3 with only the stale session. -/
def exC3dbStale : DB :=
  { sessions := [("s1", exC3staleSession)], classes := [("c1", exC3class)] }

/-- Fixture input for C3. -/
def exC3input : SessionInput :=
  { classId := "c1", location := some ⟨40, -75⟩, radius := 50 }

/-- Counterexample to C3 as frozen: with both a stale marked-active session
(`s1`, `endTime` set) and a truly active one (`s2`) in the class, the call
fails with the conflict error but does **not** first correct the stale
session - `s1` still has status `active` in the resulting store. -/
theorem C3_counterexample :
    exC3staleSession.status = "active" ∧ exC3staleSession.endTime = some 500 ∧
    (createAttendanceSession exC3db 100 "t1" exC3input "s3").1
      = .error "There is already an active session for this class" ∧
    (lookupA (createAttendanceSession exC3db 100 "t1" exC3input "s3").2.sessions
        "s1").map Session.status = some "active" := by
  exact ⟨rfl, rfl, rfl, rfl⟩

/-- Witness for C3 at concrete inputs: the conflict branch on `exC3db` and
the repair-and-create branch on `exC3dbStale`. -/
theorem C3_createSession_witness :
    createAttendanceSession exC3db 100 "t1" exC3input "s3"
      = (.error "There is already an active session for this class", exC3db) ∧
    createAttendanceSession exC3dbStale 100 "t1" exC3input "s3"
      = (.ok (createdSession 100 "t1" exC3input ⟨40, -75⟩ exC3class "s3"),
         { exC3dbStale with
             sessions :=
               putAssoc (repairStaleSessions exC3dbStale.sessions "c1" 100) "s3"
                 (createdSession 100 "t1" exC3input ⟨40, -75⟩ exC3class "s3") }) := by
  constructor
  · exact (C3_createSession exC3db 100 "t1" exC3input "s3" ⟨40, -75⟩ exC3class
      (by decide) (by decide) rfl (by decide) rfl rfl rfl).1
      ⟨("s2", exC3activeSession), List.Mem.tail _ (List.Mem.head _), rfl, rfl, rfl⟩
  · exact ((C3_createSession exC3dbStale 100 "t1" exC3input "s3" ⟨40, -75⟩ exC3class
      (by decide) (by decide) rfl (by decide) rfl rfl rfl).2
      (by
        rintro ⟨p, hp, -, -, het⟩
        rw [show exC3dbStale.sessions = [("s1", exC3staleSession)] from rfl] at hp
        rcases List.mem_singleton.mp hp with rfl
        exact absurd het (by decide))).1

/-- **C9.** `respondToVerificationRequest` fails unless a verification
request for the pair exists with status `pending`; on success the request is
marked `completed` and stamped with a response timestamp, the attendance
record is stamped with `verificationResponseTime`, and when the supplied
location passes the geofence check (distance at most the radius) the record
is upgraded to `verified` with `isGpsVerified = true`. -/
theorem C9_respondVerification (calcDistance : GeoPoint → GeoPoint → ℚ)
    (db : DB) (now : Nat) (sessionId studentId : String)
    (vd : VerificationData) (s : Session) (r : AttendanceRecord)
    (h1 : sessionId ≠ "") (h2 : studentId ≠ "")
    (hs : lookupA db.sessions sessionId = some s) (hact : s.status = "active")
    (hr : lookupA db.attendance (sessionId, studentId) = some r) :
    (lookupA db.verificationRequests (sessionId, studentId) = none →
      respondToVerificationRequest calcDistance db now sessionId studentId vd
        = (.error "No verification request found", db)) ∧
    (∀ vr, lookupA db.verificationRequests (sessionId, studentId) = some vr →
      vr.status ≠ "pending" →
      respondToVerificationRequest calcDistance db now sessionId studentId vd
        = (.error ("Verification request is " ++ vr.status ++ ", not pending"),
           db)) ∧
    (∀ vr, lookupA db.verificationRequests (sessionId, studentId) = some vr →
      vr.status = "pending" →
      respondToVerificationRequest calcDistance db now sessionId studentId vd
        = (.ok { verified := verificationWithin calcDistance s vd
                 additionalData := mergeBag r.additional vd.additional },
           { db with
               verificationRequests :=
                 updAssoc db.verificationRequests (sessionId, studentId)
                   (completedRequest vr now vd)
               attendance :=
                 updAssoc db.attendance (sessionId, studentId)
                   (verificationUpdatedRecord calcDistance s r now vd) }) ∧
      (completedRequest vr now vd).status = "completed" ∧
      (completedRequest vr now vd).responseTime = some now ∧
      (verificationUpdatedRecord calcDistance s r now vd).verificationResponseTime
        = some now ∧
      (∀ loc, vd.location = some loc → calcDistance s.location loc ≤ s.radius →
        (verificationUpdatedRecord calcDistance s r now vd).status = "verified" ∧
        (verificationUpdatedRecord calcDistance s r now vd).isGpsVerified
          = true)) := by
  refine ⟨?_, ?_, ?_⟩
  · intro hnone
    simp [respondToVerificationRequest, h1, h2, hs, hact, hr, hnone]
  · intro vr hvr hpend
    simp [respondToVerificationRequest, h1, h2, hs, hact, hr, hvr, hpend]
  · intro vr hvr hpend
    refine ⟨?_, rfl, rfl, ?_, ?_⟩
    · simp [respondToVerificationRequest, h1, h2, hs, hact, hr, hvr, hpend]
    · unfold verificationUpdatedRecord
      by_cases hw : verificationWithin calcDistance s vd = true <;> simp [hw]
    · intro loc hloc hwithin
      have hw : verificationWithin calcDistance s vd = true := by
        simp [verificationWithin, hloc, hwithin]
      unfold verificationUpdatedRecord
      simp [hw]

/-- Fixture for C9: the active session. -/
def exC9session : Session :=
  { classId := "c1", teacherId := "t1", status := "active",
    location := ⟨40, -75⟩, radius := 50 }

/-- Fixture for C9: a failed-location record awaiting verification. -/
def exC9rec : AttendanceRecord :=
  { studentId := "u1", classId := "c1", checkInTime := some 10,
    status := "failed_location", isGpsVerified := false }

/-- Fixture for C9: a pending verification request. -/
def exC9req : VerificationRequest := { status := "pending", requestTime := some 20 }

/-- Fixture store for C9. -/
def exC9db : DB :=
  { sessions := [("s1", exC9session)],
    enrollment := [("c1", "u1")],
    attendance := [(("s1", "u1"), exC9rec)],
    verificationRequests := [(("s1", "u1"), exC9req)] }

/-- Fixture distance function for C9 (constant 7 meters, inside the 50 m
radius). -/
def exC9dist : GeoPoint → GeoPoint → ℚ := fun _ _ => 7

/-- Fixture response payload for C9: carries a location. -/
def exC9vd : VerificationData := { location := some ⟨40, -75⟩ }

/-- Witness for C9 at a concrete input: the pending request completes and the
record upgrades to `verified`. -/
theorem C9_respondVerification_witness :
    respondToVerificationRequest exC9dist exC9db 99 "s1" "u1" exC9vd
      = (.ok { verified := verificationWithin exC9dist exC9session exC9vd
               additionalData := mergeBag exC9rec.additional exC9vd.additional },
         { exC9db with
             verificationRequests :=
               updAssoc exC9db.verificationRequests ("s1", "u1")
                 (completedRequest exC9req 99 exC9vd)
             attendance :=
               updAssoc exC9db.attendance ("s1", "u1")
                 (verificationUpdatedRecord exC9dist exC9session exC9rec 99
                   exC9vd) }) ∧
    (verificationUpdatedRecord exC9dist exC9session exC9rec 99 exC9vd).status
      = "verified" ∧
    (verificationUpdatedRecord exC9dist exC9session exC9rec 99 exC9vd).isGpsVerified
      = true := by
  have h := (C9_respondVerification exC9dist exC9db 99 "s1" "u1" exC9vd
    exC9session exC9rec (by decide) (by decide) rfl rfl rfl).2.2 exC9req rfl rfl
  exact ⟨h.1, (h.2.2.2.2 ⟨40, -75⟩ rfl (by norm_num [exC9dist, exC9session])).1,
    (h.2.2.2.2 ⟨40, -75⟩ rfl (by norm_num [exC9dist, exC9session])).2⟩

end CleO
